import Mathlib

/-!
Verification of the nested-folder storage platform frontend: a shallow
embedding of the two components under `client/src/components`:

* `CsvViewer.tsx` — an in-browser CSV table viewer with search, sort,
  pagination and export; and
* `FileNode.tsx`  — a recursive file/folder tree renderer.

JavaScript dynamic values that can appear in a parsed CSV cell are modelled
by the tagged union `Jv`; numeric cells are modelled over `Int` (the claims
under study never depend on fractional values).  A JS object produced by the
CSV parser in header mode is modelled as an insertion-ordered association
list (`Row`); the parser never produces duplicate keys.  ES2019 requires
`Array.prototype.sort` to be stable, so the in-place sort is modelled as a
stable insertion sort driven by the component's comparator.  React state
updates plus the recomputation effect of `CsvViewer` are modelled as a pure
step function on an explicit `ViewerState`; the in-place mutation performed
by `filtered.sort(...)` when `filtered` aliases `data` (empty search query)
is modelled explicitly in `applyRecompute`.
-/

/-- A JavaScript runtime value as it can appear in a parsed CSV cell
(`dynamicTyping: true` produces strings, numbers, booleans and nulls;
indexing a missing key yields `undefined`). -/
inductive Jv where
  | undefined
  | null
  | bool (b : Bool)
  | num (n : Int)
  | str (s : String)
deriving DecidableEq, Repr

/-- A parsed CSV record: a JS object, i.e. an insertion-ordered mapping from
column names to dynamically typed values. -/
abbrev Row := List (String × Jv)

/-- JS `String(value)` on the modelled values. -/
def jsString : Jv → String
  | .undefined => "undefined"
  | .null => "null"
  | .bool b => if b then "true" else "false"
  | .num n => toString n
  | .str s => s

/-- JS `toLowerCase()` (character-wise lowering; the inputs of interest are
ASCII). -/
def lowercase (s : String) : String := String.mk (s.toList.map Char.toLower)

/-- Whitespace test for trimming. -/
def isWS (c : Char) : Bool := c == ' ' || c == '\t' || c == '\n' || c == '\r'

/-- Trim surrounding whitespace from a character list. -/
def trimChars (l : List Char) : List Char :=
  ((l.dropWhile isWS).reverse.dropWhile isWS).reverse

/-- Trim surrounding whitespace from a string. -/
def strTrim (s : String) : String := String.mk (trimChars s.toList)

/-- Split a character list at every occurrence of `sep`. -/
def splitOnChar (sep : Char) : List Char → List (List Char)
  | [] => [[]]
  | c :: t =>
    if c = sep then [] :: splitOnChar sep t
    else match splitOnChar sep t with
      | [] => [[c]]
      | h :: rest => (c :: h) :: rest

/-- Split a string at every occurrence of the character `sep`. -/
def splitStr (sep : Char) (s : String) : List String :=
  (splitOnChar sep s.toList).map String.mk

/-- `charsPrefix pat l` decides whether `pat` is a prefix of `l`. -/
def charsPrefix : List Char → List Char → Bool
  | [], _ => true
  | _ :: _, [] => false
  | a :: as, b :: bs => a = b && charsPrefix as bs

/-- `charsContains pat hay` decides whether `pat` occurs contiguously inside
`hay`; the empty pattern always occurs, as with JS `includes`. -/
def charsContains (pat : List Char) : List Char → Bool
  | [] => charsPrefix pat []
  | h :: t => charsPrefix pat (h :: t) || charsContains pat t

/-- JS `hay.includes(pat)`. -/
def strIncludes (hay pat : String) : Bool := charsContains pat.toList hay.toList

/-- The per-row search predicate of `CsvViewer.tsx` lines 54-58:
`Object.values(row).some(v => String(v).toLowerCase().includes(q.toLowerCase()))`. -/
def rowMatches (q : String) (row : Row) : Bool :=
  row.any fun kv => strIncludes (lowercase (jsString kv.2)) (lowercase q)

/-- The search-filter step of the recompute effect (`CsvViewer.tsx` lines
50-59): `if (searchQuery) filtered = data.filter(...)`.  An empty query is
falsy, so filtering is skipped entirely. -/
def filterRows (q : String) (data : List Row) : List Row :=
  if q = "" then data else data.filter (rowMatches q)

/-- Decimal digits to a number; `none` if a non-digit occurs. -/
def digitsVal (l : List Char) : Option Nat :=
  l.foldl (fun acc c => match acc with
    | none => none
    | some v => if c.isDigit then some (v * 10 + (c.toNat - 48)) else none) (some 0)

/-- JS `ToNumber` on a string, restricted to the integer literals the model
covers: surrounding whitespace is trimmed, the empty string is `0`, an
optional minus sign precedes decimal digits, anything else is NaN (`none`). -/
def strToNumber (s : String) : Option Int :=
  let t := strTrim s
  if t = "" then some 0
  else match t.toList with
    | '-' :: rest => if rest.isEmpty then none else (digitsVal rest).map (fun v => -(v : Int))
    | l => (digitsVal l).map (fun v => (v : Int))

/-- JS `ToNumber` on the modelled values (`undefined` is NaN). -/
def toNumber : Jv → Option Int
  | .undefined => none
  | .null => some 0
  | .bool b => some (if b then 1 else 0)
  | .num n => some n
  | .str s => strToNumber s

/-- Lexicographic code-unit comparison of character lists, as JS `<` compares
two strings. -/
def charsLt : List Char → List Char → Bool
  | [], [] => false
  | [], _ :: _ => true
  | _ :: _, [] => false
  | a :: as, b :: bs => if a < b then true else if b < a then false else charsLt as bs

/-- JS `<` on two strings. -/
def strLt (a b : String) : Bool := charsLt a.toList b.toList

/-- The JS abstract relational comparison `a < b`: two strings compare
lexicographically, otherwise both sides are coerced with `ToNumber` and any
NaN makes the comparison false. -/
def jsLT : Jv → Jv → Bool
  | .str a, .str b => strLt a b
  | a, b => match toNumber a, toNumber b with
    | some x, some y => decide (x < y)
    | _, _ => false

/-- Sort direction, `"asc" | "desc"` in the source. -/
inductive SortDir where
  | asc
  | desc
deriving DecidableEq, Repr

/-- The component's `sortConfig` payload: column key and direction. -/
structure SortCfg where
  key : String
  dir : SortDir
deriving DecidableEq, Repr

/-- The comparator body of `CsvViewer.tsx` lines 63-70:
`if (aValue < bValue) return asc ? -1 : 1; if (aValue > bValue) return asc ? 1 : -1; return 0;`
(JS `a > b` performs the comparison `b < a`). -/
def compareCells (dir : SortDir) (a b : Jv) : Int :=
  if jsLT a b then (match dir with | .asc => -1 | .desc => 1)
  else if jsLT b a then (match dir with | .asc => 1 | .desc => -1)
  else 0

/-- JS property read `row[k]`: first matching key, `undefined` if absent. -/
def jsIndex (row : Row) (k : String) : Jv :=
  match row.find? (fun kv => kv.1 == k) with
  | some kv => kv.2
  | none => .undefined

/-- The row comparator passed to `filtered.sort` (lines 63-70):
compares `a[sortConfig.key]` with `b[sortConfig.key]`. -/
def rowComparator (cfg : SortCfg) (a b : Row) : Int :=
  compareCells cfg.dir (jsIndex a cfg.key) (jsIndex b cfg.key)

/-- Stable insertion of `x` into `l` under comparator `c`: `x` moves past
exactly the elements it compares greater than, which is the ordering an
ES2019-conformant stable `Array.prototype.sort` produces. -/
def insPlace {α : Type} (c : α → α → Int) (x : α) : List α → List α
  | [] => [x]
  | y :: l => if 0 < c x y then y :: insPlace c x l else x :: y :: l

/-- Stable sort by a three-way comparator, modelling `Array.prototype.sort`
(stable per ES2019). -/
def sortByCmp {α : Type} (c : α → α → Int) : List α → List α
  | [] => []
  | x :: l => insPlace c x (sortByCmp c l)

/-- The sort step of the recompute effect (lines 62-71): sort only when a
`sortConfig` is active. -/
def sortRows (cfg : Option SortCfg) (l : List Row) : List Row :=
  match cfg with
  | none => l
  | some c => sortByCmp (rowComparator c) l

/-- The sort of the recompute effect applied to index-tagged rows; the tag
records each row's position in the pre-sort list, making stability
expressible while the comparator still inspects only the row. -/
def sortRowsEnum (cfg : SortCfg) (l : List Row) : List (Nat × Row) :=
  sortByCmp (fun a b => rowComparator cfg a.2 b.2) l.enum

/-- The mutable state owned by `CsvViewer` (lines 6-16). -/
structure ViewerState where
  data : List Row
  columns : List String
  filteredData : List Row
  searchQuery : String
  sortConfig : Option SortCfg
  currentPage : Nat
  loading : Bool
  error : Option String
deriving DecidableEq, Repr

/-- The `useState` initial values of `CsvViewer` (lines 6-16). -/
def initState : ViewerState :=
  { data := [], columns := [], filteredData := [], searchQuery := "",
    sortConfig := none, currentPage := 1, loading := true, error := none }

/-- The recompute effect (lines 49-75).  When the query is empty, `filtered`
is the very `data` array, so the in-place `Array.prototype.sort` mutates
`data`; with a non-empty query, `data.filter` allocates a fresh array and
`data` is left untouched.  The effect always ends with `setFilteredData`
and `setCurrentPage(1)`. -/
def applyRecompute (s : ViewerState) : ViewerState :=
  let sorted := sortRows s.sortConfig (filterRows s.searchQuery s.data)
  { s with
    data := if s.searchQuery = "" then sorted else s.data,
    filteredData := sorted,
    currentPage := 1 }

/-- Typing in the search box (line 138) followed by the recompute effect. -/
def setSearchQuery (q : String) (s : ViewerState) : ViewerState :=
  applyRecompute { s with searchQuery := q }

/-- The functional update of `handleSort` (lines 77-82): same column while
ascending flips to descending; anything else starts ascending on `column`. -/
def nextSortConfig (column : String) (current : Option SortCfg) : SortCfg :=
  { key := column,
    dir := match current with
      | some c => if c.key = column && c.dir = .asc then .desc else .asc
      | none => .asc }

/-- Clicking a column header (`handleSort`, lines 77-82) followed by the
recompute effect. -/
def handleSort (column : String) (s : ViewerState) : ViewerState :=
  applyRecompute { s with sortConfig := some (nextSortConfig column s.sortConfig) }

/-- `itemsPerPage` (line 18). -/
def itemsPerPage : Nat := 50

/-- `totalPages = Math.ceil(filteredData.length / itemsPerPage)` (line 122). -/
def totalPages (s : ViewerState) : Nat :=
  (s.filteredData.length + itemsPerPage - 1) / itemsPerPage

/-- `currentData = filteredData.slice(startIndex, endIndex)` (lines 123-125). -/
def currentData (s : ViewerState) : List Row :=
  (s.filteredData.drop ((s.currentPage - 1) * itemsPerPage)).take itemsPerPage

/-- The Previous button (line 203): `setCurrentPage(Math.max(1, currentPage - 1))`. -/
def setPagePrev (s : ViewerState) : ViewerState :=
  { s with currentPage := max 1 (s.currentPage - 1) }

/-- The Next button (line 232): `setCurrentPage(Math.min(totalPages, currentPage + 1))`. -/
def setPageNext (s : ViewerState) : ViewerState :=
  { s with currentPage := min (totalPages s) (s.currentPage + 1) }

/-- A numbered page button (line 218): `setCurrentPage(pageNum)` — no clamping. -/
def setPageButton (n : Nat) (s : ViewerState) : ViewerState :=
  { s with currentPage := n }

/-- The page numbers for which buttons are rendered (lines 211-212):
`Array.from(..., length Math.min(5, totalPages), i => i + 1)`. -/
def pageButtons (s : ViewerState) : List Nat :=
  (List.range (min 5 (totalPages s))).map (fun i => i + 1)

/-- Result of `Papa.parse(text, header: true, dynamicTyping, skipEmptyLines,
transformHeader: trim)`. -/
structure ParseResult where
  fields : List String
  rows : List Row
  errors : List String
deriving DecidableEq, Repr

/-- Drop a trailing carriage return from a character list. -/
def stripCRChars : List Char → List Char
  | [] => []
  | ['\r'] => []
  | c :: t => c :: stripCRChars t

/-- Strip a trailing carriage return left by splitting CRLF input on `\n`. -/
def stripCR (line : String) : String := String.mk (stripCRChars line.toList)

/-- Integer-literal test used to model `dynamicTyping`: optional minus sign
followed by decimal digits (fractional and exponent forms are outside the
modelled value range). -/
def strToInt (s : String) : Option Int :=
  match s.toList with
  | '-' :: rest => if rest.isEmpty then none else (digitsVal rest).map (fun v => -(v : Int))
  | l => if l.isEmpty then none else (digitsVal l).map (fun v => (v : Int))

/-- `dynamicTyping`: an empty cell becomes `null`, the boolean tokens become
booleans, numeric literals become numbers, anything else stays a string. -/
def dynamicType (v : String) : Jv :=
  if v = "" then .null
  else if v = "true" then .bool true
  else if v = "false" then .bool false
  else match strToInt v with
    | some n => .num n
    | none => .str v

/-- Build one record from the header fields and one data line: keys appear in
header order, surplus cells are dropped, missing cells leave the key absent
(the header-mode parser reports a FieldMismatch error in both cases). -/
def parseLine (fields : List String) (line : String) : Row :=
  (fields.zip (splitStr ',' line)).map (fun kv => (kv.1, dynamicType kv.2))

/-- The CSV parse (`Papa.parse` in header mode on comma-separated text without
quoted fields, the format this component feeds it): the first non-empty line
is the header, each header name is trimmed (`transformHeader`), empty lines
are skipped (`skipEmptyLines`), and any data line whose field count differs
from the header produces a structural error, as header mode reports
TooFewFields/TooManyFields. -/
def parseCSV (text : String) : ParseResult :=
  match ((splitStr '\n' text).map stripCR).filter (fun l => l ≠ "") with
  | [] => { fields := [], rows := [], errors := ["UndetectableDelimiter"] }
  | header :: rest =>
    let fields := (splitStr ',' header).map strTrim
    { fields := fields,
      rows := rest.map (parseLine fields),
      errors := rest.filterMap (fun line =>
        if (splitStr ',' line).length = fields.length then none else some "FieldMismatch") }

/-- The load effect's `onload` handler (lines 20-47).  On a parser-reported
structural error it only runs `setError("Error parsing CSV file"); return;`
— in particular it does not touch `loading` — otherwise it populates
`data`/`filteredData`/`columns` and clears `loading`; the dependent recompute
effect then runs once on the new `data`. -/
def loadFile (text : String) (s : ViewerState) : ViewerState :=
  let p := parseCSV text
  if p.errors.isEmpty then
    applyRecompute
      { s with data := p.rows, filteredData := p.rows, columns := p.fields, loading := false }
  else
    { s with error := some "Error parsing CSV file" }

/-- The `catch` branch of the load effect (lines 41-44): an exception while
reading or parsing sets the read-failure message and clears `loading`. -/
def loadFailure (s : ViewerState) : ViewerState :=
  { s with error := some "Failed to load CSV file", loading := false }

/-- What the component renders, abstracted to the branch taken: the loading
spinner (lines 104-111), the error screen (lines 113-120), or the table. -/
inductive RenderView where
  | loadingView
  | errorView (msg : String)
  | tableView (cols : List String) (pageRows : List Row)
deriving DecidableEq, Repr

/-- The top-level render order of `CsvViewer` (lines 104-127): the `loading`
check comes first, then the `error` check, then the table. -/
def render (s : ViewerState) : RenderView :=
  if s.loading then .loadingView
  else match s.error with
    | some m => .errorView m
    | none => .tableView s.columns (currentData s)

/-- JS string form of a cell for `Papa.unparse`: `null`/`undefined` serialize
as the empty field (quoting of delimiter characters is outside the modelled
value range). -/
def csvCell : Jv → String
  | .undefined => ""
  | .null => ""
  | .bool b => if b then "true" else "false"
  | .num n => toString n
  | .str s => s

/-- `Papa.unparse(rows)` on an array of objects with default configuration:
an empty array yields the empty string; otherwise the fields are the keys of
the first object, serialized as a header line followed by one line per row
with the fields in that order, rows joined by CRLF. -/
def unparse (rows : List Row) : String :=
  match rows with
  | [] => ""
  | r0 :: _ =>
    let fields := r0.map Prod.fst
    String.intercalate "\r\n"
      (String.intercalate "," fields ::
        rows.map (fun r => String.intercalate "," (fields.map (fun f => csvCell (jsIndex r f)))))

/-- `exportData` (lines 95-102): the download filename and the serialized
text, built from the current `filteredData` at the moment of invocation. -/
def exportData (fileName : String) (s : ViewerState) : String × String :=
  ("filtered_" ++ fileName, unparse s.filteredData)

/-- Serialization using a given column ordering — the claim's reading of
"delimited text using the original columns ordering of the header". -/
def specSerialize (cols : List String) (rows : List Row) : String :=
  String.intercalate "\r\n"
    (String.intercalate "," cols ::
      rows.map (fun r => String.intercalate "," (cols.map (fun f => csvCell (jsIndex r f)))))

/-- The claim's per-row filter predicate, written from the spec's words: some
field's string form contains the query case-insensitively. -/
def specMatches (q : String) (r : Row) : Prop :=
  ∃ kv ∈ r, strIncludes (lowercase (jsString kv.2)) (lowercase q) = true

instance (q : String) (r : Row) : Decidable (specMatches q r) :=
  List.decidableBEx _ r

/-- A node of the file/folder tree (`FileNode.tsx`): `type` discriminates
folders from files, `children` is the ordered subtree sequence. -/
structure TreeNode where
  name : String
  type : String
  fileType : String
  createdAt : String
  modifiedBy : String
  children : List TreeNode

/-- The rendered shape of one `FileNode` instance: the chevron (down when
expanded, right when collapsed, absent for files), the children block
(present only when expanded with at least one child, lines 74-80), and the
"Empty folder" indicator (present only when expanded with zero children,
lines 82-87). -/
inductive Rendered where
  | node (name : String) (isFolder : Bool) (arrow : Option Bool)
      (childrenBlock : Option (List Rendered)) (emptyIndicator : Bool)

/-- The `emptyIndicator` field of a rendered node. -/
def Rendered.emptyInd : Rendered → Bool
  | .node _ _ _ _ e => e

/-- The `childrenBlock` field of a rendered node. -/
def Rendered.childBlock : Rendered → Option (List Rendered)
  | .node _ _ _ c _ => c

/-- Render one `FileNode` with its local `expanded` flag.  Children mount as
fresh component instances whose `useState(false)` starts them collapsed
(line 5), so they render with `expanded = false`. -/
def renderNode (expanded : Bool) (n : TreeNode) : Rendered :=
  let isFolder := n.type == "folder"
  Rendered.node n.name isFolder
    (if isFolder then some expanded else none)
    (if expanded && isFolder && !n.children.isEmpty
      then some (n.children.attach.map (fun c => renderNode false c.1))
      else none)
    (expanded && isFolder && n.children.isEmpty)
termination_by n
decreasing_by
  have := List.sizeOf_lt_of_mem c.2
  cases n
  simp at this ⊢
  omega

/-- `String(row[column] || "")` is empty exactly on falsy values: `undefined`,
`null`, `false`, `0` and the empty string. -/
def jsFalsy : Jv → Bool
  | .undefined => true
  | .null => true
  | .bool b => !b
  | .num n => n == 0
  | .str s => s == ""

/-- The table-body cell text (line 183): `String(row[column] || "")`. -/
def displayCell (row : Row) (col : String) : String :=
  let v := jsIndex row col
  if jsFalsy v then "" else jsString v

/-! Concrete states used by counterexamples and witnesses. -/

/-- A row tying with `rowB` on column `a`. -/
def rowA : Row := [("a", Jv.num 1), ("b", Jv.num 2)]

/-- A row tying with `rowA` on column `a`. -/
def rowB : Row := [("a", Jv.num 1), ("b", Jv.num 1)]

/-- A loaded two-row dataset with an all-ties column `a`. -/
def stateAB : ViewerState :=
  { initState with
    data := [rowA, rowB], filteredData := [rowA, rowB],
    columns := ["a", "b"], loading := false }

/-- String cell `"50"`: lexicographically below `"7"`, numerically above `7`. -/
def rowS50 : Row := [("v", Jv.str "50")]

/-- String cell `"7"`: numerically tied with the number `7`. -/
def rowS7 : Row := [("v", Jv.str "7")]

/-- Number cell `7`. -/
def rowN7 : Row := [("v", Jv.num 7)]

/-- A loaded dataset whose column `v` mixes strings and numbers, making the
sort comparator incoherent (`"50" < "7"` lexicographically yet `"50" > 7`
and `"7" == 7` numerically). -/
def stateMixed : ViewerState :=
  { initState with
    data := [rowS50, rowS7, rowN7],
    filteredData := [rowS50, rowS7, rowN7], columns := ["v"], loading := false }

/-- `stateMixed` with a non-empty search query. -/
def stateMixedQ : ViewerState := { stateMixed with searchQuery := "7" }

/-- A state with 120 filtered rows on page 2 (so totalPages is 3). -/
def state120 : ViewerState :=
  { initState with
    filteredData := List.replicate 120 rowA,
    currentPage := 2, loading := false }

/-- A folder node with zero children. -/
def emptyFolder : TreeNode :=
  { name := "docs", type := "folder", fileType := "", createdAt := "",
    modifiedBy := "", children := [] }

/-! Helper lemmas about the stable sort and the filter. -/

theorem insPlace_perm {α : Type} (c : α → α → Int) (x : α) (l : List α) :
    (insPlace c x l).Perm (x :: l) := by
  induction l with
  | nil => simp [insPlace]
  | cons y t ih =>
    simp only [insPlace]
    by_cases h : 0 < c x y
    · rw [if_pos h]
      exact (ih.cons y).trans (List.Perm.swap x y t)
    · rw [if_neg h]

theorem sortByCmp_perm {α : Type} (c : α → α → Int) (l : List α) :
    (sortByCmp c l).Perm l := by
  induction l with
  | nil => simp [sortByCmp]
  | cons x t ih =>
    simp only [sortByCmp]
    exact (insPlace_perm c x (sortByCmp c t)).trans (ih.cons x)

theorem mem_sortByCmp {α : Type} (c : α → α → Int) (l : List α) (a : α) :
    a ∈ sortByCmp c l ↔ a ∈ l :=
  (sortByCmp_perm c l).mem_iff

theorem mem_sortRows (cfg : Option SortCfg) (l : List Row) (r : Row) :
    r ∈ sortRows cfg l ↔ r ∈ l := by
  cases cfg with
  | none => simp [sortRows]
  | some c => exact mem_sortByCmp (rowComparator c) l r

theorem filterRows_sublist (q : String) (d : List Row) :
    (filterRows q d).Sublist d := by
  unfold filterRows
  split
  · exact List.Sublist.refl d
  · exact List.filter_sublist d

theorem mem_filterRows {q : String} {d : List Row} {r : Row}
    (h : r ∈ filterRows q d) : r ∈ d :=
  (filterRows_sublist q d).subset h

theorem rowMatches_eq_decide (q : String) (r : Row) :
    rowMatches q r = decide (specMatches q r) := by
  by_cases h : specMatches q r
  · rw [decide_eq_true h]
    obtain ⟨kv, hkv, he⟩ := h
    exact List.any_eq_true.mpr ⟨kv, hkv, he⟩
  · rw [decide_eq_false h]
    rw [← Bool.not_eq_true]
    intro hc
    obtain ⟨kv, hkv, he⟩ := List.any_eq_true.mp hc
    exact h ⟨kv, hkv, he⟩

/-- C1: for every dataset and query, the filter step of the recompute effect
produces exactly the subsequence of the dataset's rows in which at least one
field's string form contains the query case-insensitively, and the empty
query retains all rows in order. -/
theorem C1_filter_characterization (data : List Row) (q : String) :
    (filterRows q data).Sublist data ∧
    filterRows q data =
      (if q = "" then data else data.filter (fun r => decide (specMatches q r))) := by
  refine ⟨filterRows_sublist q data, ?_⟩
  unfold filterRows
  split
  · rfl
  · exact List.filter_congr (fun r _ => rowMatches_eq_decide q r)

/-- C2: the claim says a read failure or parser-reported structural error
lands in a terminal Failed state with a user-visible error message.  The
exception path (`loadFailure`) does behave that way, but on the concrete
malformed input `"a,b\n1,2,3"` (three cells under a two-column header) the
parser reports an error, the handler sets the parse-error message without
ever clearing `loading`, and since the render checks `loading` before
`error`, the component keeps showing the loading spinner: the message is
never user-visible.  Columns and rows do remain unpopulated. -/
theorem C2_parse_error_spinner_stuck :
    (loadFile "a,b\n1,2,3" initState).error = some "Error parsing CSV file" ∧
    (loadFile "a,b\n1,2,3" initState).loading = true ∧
    render (loadFile "a,b\n1,2,3" initState) = RenderView.loadingView ∧
    (loadFile "a,b\n1,2,3" initState).data = [] ∧
    (loadFile "a,b\n1,2,3" initState).columns = [] ∧
    render (loadFailure initState) = RenderView.errorView "Failed to load CSV file" := by
  decide

/-- C6: changing the search query or the sort configuration runs the
recompute effect, which always resets the current page to 1; each of the
three page-changing controls touches only `currentPage`, leaving both
`filteredData` and `data` unchanged. -/
theorem C6_page_reset_and_frame (s : ViewerState) (q col : String) (n : Nat) :
    (setSearchQuery q s).currentPage = 1 ∧
    (handleSort col s).currentPage = 1 ∧
    (setPagePrev s).filteredData = s.filteredData ∧ (setPagePrev s).data = s.data ∧
    (setPageNext s).filteredData = s.filteredData ∧ (setPageNext s).data = s.data ∧
    (setPageButton n s).filteredData = s.filteredData ∧ (setPageButton n s).data = s.data :=
  ⟨rfl, rfl, rfl, rfl, rfl, rfl, rfl, rfl⟩

/-- C10: a table cell displays the empty string exactly when the stored value
is falsy — `undefined` (missing key), `null`, `false`, `0` or the empty
string — and otherwise displays the value's JS string form. -/
theorem C10_falsy_cell_display (row : Row) (col : String) :
    (jsFalsy (jsIndex row col) = true → displayCell row col = "") ∧
    (jsFalsy (jsIndex row col) = false → displayCell row col = jsString (jsIndex row col)) ∧
    jsFalsy Jv.null = true ∧ jsFalsy (Jv.num 0) = true ∧
    jsFalsy (Jv.bool false) = true ∧ jsFalsy (Jv.str "") = true ∧
    jsFalsy Jv.undefined = true := by
  refine ⟨?_, ?_, rfl, by decide, rfl, by decide, rfl⟩
  · intro h
    simp [displayCell, h]
  · intro h
    simp [displayCell, h]

/-- C10 witness: concrete falsy cells (`0`, `false`, `""`, missing key)
display as empty and a truthy string displays as itself. -/
theorem C10_falsy_cell_display_witness :
    displayCell [("a", Jv.num 0)] "a" = "" ∧
    displayCell [("a", Jv.bool false)] "a" = "" ∧
    displayCell [("a", Jv.str "")] "a" = "" ∧
    displayCell [] "a" = "" ∧
    displayCell [("a", Jv.str "x")] "a" = jsString (jsIndex [("a", Jv.str "x")] "a") :=
  ⟨(C10_falsy_cell_display [("a", Jv.num 0)] "a").1 (by decide),
   (C10_falsy_cell_display [("a", Jv.bool false)] "a").1 (by decide),
   (C10_falsy_cell_display [("a", Jv.str "")] "a").1 (by decide),
   (C10_falsy_cell_display [] "a").1 (by decide),
   (C10_falsy_cell_display [("a", Jv.str "x")] "a").2.1 (by decide)⟩

/-! Stability of the modelled `Array.prototype.sort`. -/

theorem sublist_insPlace {α : Type} (c : α → α → Int) (x : α) (l : List α) :
    l.Sublist (insPlace c x l) := by
  induction l with
  | nil => simp [insPlace]
  | cons y t ih =>
    simp only [insPlace]
    by_cases h : 0 < c x y
    · rw [if_pos h]
      exact List.Sublist.cons₂ y ih
    · rw [if_neg h]
      exact List.sublist_cons_self x (y :: t)

theorem compareCells_pos_ne_zero (dir : SortDir) (x y : Jv)
    (h : 0 < compareCells dir x y) : compareCells dir y x ≠ 0 := by
  unfold compareCells at h ⊢
  cases dir <;> by_cases h1 : jsLT x y <;> by_cases h2 : jsLT y x <;>
    simp [h1, h2] at h ⊢

theorem rowComparator_pos_ne_zero (cfg : SortCfg) (a b : Row)
    (h : 0 < rowComparator cfg a b) : rowComparator cfg b a ≠ 0 :=
  compareCells_pos_ne_zero cfg.dir (jsIndex a cfg.key) (jsIndex b cfg.key) h

theorem stable_insPlace {α : Type} (c : α → α → Int)
    (hcz : ∀ a b : α, 0 < c a b → c b a ≠ 0) :
    ∀ (m : List (Nat × α)) (x : Nat × α),
      (∀ p q : Nat × α, [p, q].Sublist m → c p.2 q.2 = 0 → p.1 < q.1) →
      (∀ q ∈ m, x.1 < q.1) →
      ∀ p q : Nat × α, [p, q].Sublist (insPlace (fun a b => c a.2 b.2) x m) →
        c p.2 q.2 = 0 → p.1 < q.1 := by
  intro m
  induction m with
  | nil =>
    intro x hm hx p q hsub hc
    simp only [insPlace] at hsub
    have h2 := hsub.length_le
    simp at h2
  | cons y t ih =>
    intro x hm hx p q hsub hc
    simp only [insPlace] at hsub
    by_cases hpass : 0 < c x.2 y.2
    · rw [if_pos hpass] at hsub
      cases hsub with
      | cons _ h =>
        exact ih x
          (fun p1 q1 hs hc1 => hm p1 q1 (hs.cons y) hc1)
          (fun q1 hq1 => hx q1 (List.mem_cons_of_mem y hq1))
          p q h hc
      | cons₂ _ h =>
        have hqmem : q ∈ insPlace (fun a b => c a.2 b.2) x t :=
          List.singleton_sublist.mp h
        have hq2 : q = x ∨ q ∈ t := by
          have hp := (insPlace_perm (fun a b => c a.2 b.2) x t).mem_iff.mp hqmem
          simpa using hp
        rcases hq2 with rfl | hq
        · exact absurd hc (hcz _ _ hpass)
        · exact hm y q (List.Sublist.cons₂ y (List.singleton_sublist.mpr hq)) hc
    · rw [if_neg hpass] at hsub
      cases hsub with
      | cons _ h => exact hm p q h hc
      | cons₂ _ h => exact hx q (List.singleton_sublist.mp h)

theorem stable_sortByCmp {α : Type} (c : α → α → Int)
    (hcz : ∀ a b : α, 0 < c a b → c b a ≠ 0) :
    ∀ m : List (Nat × α), m.Pairwise (fun a b => a.1 < b.1) →
      ∀ p q : Nat × α, [p, q].Sublist (sortByCmp (fun a b => c a.2 b.2) m) →
        c p.2 q.2 = 0 → p.1 < q.1 := by
  intro m
  induction m with
  | nil =>
    intro _ p q hsub _
    simp [sortByCmp] at hsub
  | cons x t ih =>
    intro hpw p q hsub hc
    rw [List.pairwise_cons] at hpw
    exact stable_insPlace c hcz (sortByCmp (fun a b => c a.2 b.2) t) x
      (fun p1 q1 hs hc1 => ih hpw.2 p1 q1 hs hc1)
      (fun q1 hq1 => hpw.1 q1 ((sortByCmp_perm (fun a b => c a.2 b.2) t).mem_iff.mp hq1))
      p q hsub hc

theorem enumFrom_fst_ge {α : Type} :
    ∀ (l : List α) (n : Nat) (p : Nat × α), p ∈ List.enumFrom n l → n ≤ p.1 := by
  intro l
  induction l with
  | nil => intro n p hp; simp [List.enumFrom] at hp
  | cons a t ih =>
    intro n p hp
    simp only [List.enumFrom] at hp
    rcases List.mem_cons.mp hp with rfl | hp2
    · exact Nat.le_refl n
    · exact Nat.le_of_succ_le (ih (n + 1) p hp2)

theorem enumFrom_pairwise {α : Type} :
    ∀ (l : List α) (n : Nat),
      (List.enumFrom n l).Pairwise (fun a b => a.1 < b.1) := by
  intro l
  induction l with
  | nil => intro n; simp [List.enumFrom]
  | cons a t ih =>
    intro n
    simp only [List.enumFrom]
    refine List.Pairwise.cons ?_ (ih (n + 1))
    intro p hp
    have h2 := enumFrom_fst_ge t (n + 1) p hp
    show n < p.1
    omega

theorem enumFrom_map_snd {α : Type} :
    ∀ (l : List α) (n : Nat), (List.enumFrom n l).map Prod.snd = l := by
  intro l
  induction l with
  | nil => intro n; rfl
  | cons a t ih =>
    intro n
    simp only [List.enumFrom, List.map_cons]
    rw [ih]

theorem enum_map_snd {α : Type} (l : List α) : l.enum.map Prod.snd = l :=
  enumFrom_map_snd l 0

theorem map_snd_insPlace {α : Type} (c : α → α → Int) (x : Nat × α) (l : List (Nat × α)) :
    (insPlace (fun a b => c a.2 b.2) x l).map Prod.snd = insPlace c x.2 (l.map Prod.snd) := by
  induction l with
  | nil => rfl
  | cons y t ih =>
    by_cases h : 0 < c x.2 y.2
    · simp [insPlace, h, ih]
    · simp [insPlace, h]

theorem map_snd_sortByCmp {α : Type} (c : α → α → Int) (l : List (Nat × α)) :
    (sortByCmp (fun a b => c a.2 b.2) l).map Prod.snd = sortByCmp c (l.map Prod.snd) := by
  induction l with
  | nil => rfl
  | cons x t ih =>
    simp only [sortByCmp]
    rw [map_snd_insPlace, ih]

/-- C4: the sort applied during recomputation is stable: it coincides with
the index-tagged sort (whose comparator ignores the tag), and whenever two
tagged rows compare equal at the sort column (the comparator returns 0),
their relative output order agrees with their input positions. -/
theorem C4_sort_stable (cfg : SortCfg) (l : List Row) :
    sortRows (some cfg) l = (sortRowsEnum cfg l).map Prod.snd ∧
    ∀ p q : Nat × Row, [p, q].Sublist (sortRowsEnum cfg l) →
      rowComparator cfg p.2 q.2 = 0 → p.1 < q.1 := by
  constructor
  · show sortByCmp (rowComparator cfg) l = _
    rw [sortRowsEnum, map_snd_sortByCmp, enum_map_snd]
  · intro p q hsub hc
    exact stable_sortByCmp (rowComparator cfg)
      (fun a b h => rowComparator_pos_ne_zero cfg a b h)
      l.enum (enumFrom_pairwise l 0) p q hsub hc

/-- C4 witness: two rows tying on column `a` stay in input order. -/
theorem C4_sort_stable_witness :
    ([((0 : Nat), rowA), ((1 : Nat), rowB)]).Sublist
        (sortRowsEnum { key := "a", dir := SortDir.asc } [rowA, rowB]) ∧
    rowComparator { key := "a", dir := SortDir.asc } rowA rowB = 0 ∧
    (0 : Nat) < 1 :=
  ⟨by decide, by decide,
    (C4_sort_stable { key := "a", dir := SortDir.asc } [rowA, rowB]).2
      (0, rowA) (1, rowB) (by decide) (by decide)⟩

/-- C3 counterexample: two histories over the same loaded dataset that end
with the same search query and the same sort configuration produce different
filteredRows.  Sorting column `b` first reorders `data` itself (the in-place
sort aliases `data` when the query is empty), so the later all-ties sort on
column `a` — being stable — preserves that reordering: filteredRows depends
on the history of sorts, not only on the (dataset, searchQuery, sortConfig)
triple. -/
theorem C3_history_dependence_counterexample :
    (handleSort "a" stateAB).searchQuery =
        (handleSort "a" (handleSort "b" stateAB)).searchQuery ∧
    (handleSort "a" stateAB).sortConfig =
        (handleSort "a" (handleSort "b" stateAB)).sortConfig ∧
    stateAB.data = [rowA, rowB] ∧
    (handleSort "a" (handleSort "b" stateAB)).filteredData ≠
        (handleSort "a" stateAB).filteredData := by
  decide

/-- C3 amended: after each recomputation, filteredRows is the pure function
`sortRows ∘ filterRows` of the data array as it stood when the recomputation
started together with the new query and sort configuration; it contains only
rows of that array; and a successful load rebuilds it from the newly parsed
rows only, so rows of a previously loaded dataset are never retained.  It is
not a function of the dataset as loaded, because the empty-query in-place
sort mutates the data array (the counterexample). -/
theorem C3_filtered_pure_of_prior_data (s : ViewerState) (q col text : String) :
    (setSearchQuery q s).filteredData = sortRows s.sortConfig (filterRows q s.data) ∧
    (handleSort col s).filteredData =
      sortRows (some (nextSortConfig col s.sortConfig)) (filterRows s.searchQuery s.data) ∧
    (∀ r ∈ (setSearchQuery q s).filteredData, r ∈ s.data) ∧
    (∀ r ∈ (handleSort col s).filteredData, r ∈ s.data) ∧
    ((parseCSV text).errors = [] →
      ∀ r ∈ (loadFile text s).filteredData, r ∈ (parseCSV text).rows) := by
  refine ⟨rfl, rfl, ?_, ?_, ?_⟩
  · intro r hr
    have hr2 : r ∈ sortRows s.sortConfig (filterRows q s.data) := hr
    exact mem_filterRows ((mem_sortRows _ _ r).mp hr2)
  · intro r hr
    have hr2 : r ∈ sortRows (some (nextSortConfig col s.sortConfig))
        (filterRows s.searchQuery s.data) := hr
    exact mem_filterRows ((mem_sortRows _ _ r).mp hr2)
  · intro he r hr
    simp only [loadFile, he, List.isEmpty_nil, if_true, applyRecompute] at hr
    exact mem_filterRows ((mem_sortRows _ _ r).mp hr)

/-- C3 amended witness: a filtered row is a row of the pre-recompute data,
and a freshly loaded row is one of the newly parsed rows. -/
theorem C3_filtered_pure_witness :
    rowA ∈ stateAB.data ∧ ([("v", Jv.num 1)] : Row) ∈ (parseCSV "v\n1").rows :=
  ⟨(C3_filtered_pure_of_prior_data stateAB "2" "a" "v\n1").2.2.1 rowA (by decide),
   (C3_filtered_pure_of_prior_data stateAB "2" "a" "v\n1").2.2.2.2 (by decide)
     ([("v", Jv.num 1)] : Row) (by decide)⟩

/-- C5 counterexample: on the mixed-type column `v` with an empty query, the
first SetSort lands on ascending and two further SetSorts return to
ascending, yet filteredRows differ from the original ascending sort.  The
comparator is incoherent on mixed types (the string "50" is lexicographically
below "7" but numerically above the number 7) and the empty-query sort has
mutated the base array, so the claimed round trip fails. -/
theorem C5_toggle_counterexample :
    (handleSort "v" stateMixed).sortConfig = some { key := "v", dir := SortDir.asc } ∧
    (handleSort "v" (handleSort "v" (handleSort "v" stateMixed))).sortConfig =
      some { key := "v", dir := SortDir.asc } ∧
    (handleSort "v" (handleSort "v" (handleSort "v" stateMixed))).filteredData ≠
      (handleSort "v" stateMixed).filteredData := by
  decide

/-- C5 amended: when the search query is non-empty, `data.filter` allocates a
fresh array on every recomputation and the base data array is never mutated,
so invoking SetSort on the same column twice starting from an ascending sort
on that column (ascending, descending, ascending) restores exactly the
original ascending filteredRows.  With an empty query the in-place sort
mutates `data` and mixed-type columns can break the round trip, as the
counterexample shows. -/
theorem C5_toggle_roundtrip_nonempty_query (s : ViewerState) (k : String)
    (hq : s.searchQuery ≠ "")
    (hasc : (handleSort k s).sortConfig = some { key := k, dir := SortDir.asc }) :
    (handleSort k (handleSort k (handleSort k s))).filteredData =
      (handleSort k s).filteredData := by
  have hnext : nextSortConfig k s.sortConfig = { key := k, dir := SortDir.asc } := by
    simpa [handleSort, applyRecompute] using hasc
  have hs1 : handleSort k s =
      { s with sortConfig := some { key := k, dir := SortDir.asc },
               filteredData := sortRows (some { key := k, dir := SortDir.asc })
                 (filterRows s.searchQuery s.data),
               currentPage := 1 } := by
    rw [handleSort, hnext]
    simp [applyRecompute, hq]
  have hs2 : handleSort k (handleSort k s) =
      { s with sortConfig := some { key := k, dir := SortDir.desc },
               filteredData := sortRows (some { key := k, dir := SortDir.desc })
                 (filterRows s.searchQuery s.data),
               currentPage := 1 } := by
    rw [hs1, handleSort]
    simp [nextSortConfig, applyRecompute, hq]
  have hs3 : handleSort k (handleSort k (handleSort k s)) =
      { s with sortConfig := some { key := k, dir := SortDir.asc },
               filteredData := sortRows (some { key := k, dir := SortDir.asc })
                 (filterRows s.searchQuery s.data),
               currentPage := 1 } := by
    rw [hs2, handleSort]
    simp [nextSortConfig, applyRecompute, hq]
  rw [hs3, hs1]

/-- C5 amended witness: on the mixed dataset with the non-empty query "7" the
toggle round trip restores the ascending order. -/
theorem C5_toggle_roundtrip_witness :
    stateMixedQ.searchQuery ≠ "" ∧
    (handleSort "v" stateMixedQ).sortConfig = some { key := "v", dir := SortDir.asc } ∧
    (handleSort "v" (handleSort "v" (handleSort "v" stateMixedQ))).filteredData =
      (handleSort "v" stateMixedQ).filteredData :=
  ⟨by decide, by decide,
    C5_toggle_roundtrip_nonempty_query stateMixedQ "v" (by decide) (by decide)⟩

/-- C7 counterexample: with 120 filtered rows totalPages is 3, but the code's
only control that takes an explicit target page — the numbered-button handler
`setCurrentPage(pageNum)` — performs no clamping: targeting page 5 yields
page 5, not 3. -/
theorem C7_setpage_no_clamp_counterexample :
    totalPages state120 = 3 ∧
    (setPageButton 5 state120).currentPage = 5 ∧ (5 : Nat) ≠ 3 := by
  decide

/-- C7 amended: when the current page lies in [1, totalPages], every
page-setting control lands on the clamp of its target page into
[1, totalPages]: Previous targets `currentPage - 1` (clamped below at 1),
Next targets `currentPage + 1` (clamped above at totalPages), and the
numbered buttons are rendered only for pages 1..min(5, totalPages), which
clamping leaves unchanged.  `totalPages` is `ceil(length / 50)` and the
visible page is always the slice `filteredRows[(p-1)*50 : p*50]`. -/
theorem C7_pagination_amended (s : ViewerState)
    (hlo : 1 ≤ s.currentPage) (hhi : s.currentPage ≤ totalPages s) :
    (setPagePrev s).currentPage = min (totalPages s) (max 1 (s.currentPage - 1)) ∧
    (setPageNext s).currentPage = min (totalPages s) (max 1 (s.currentPage + 1)) ∧
    (∀ n ∈ pageButtons s, (setPageButton n s).currentPage = min (totalPages s) (max 1 n)) ∧
    totalPages s = (s.filteredData.length + 49) / 50 ∧
    currentData s = (s.filteredData.drop ((s.currentPage - 1) * 50)).take 50 := by
  refine ⟨?_, ?_, ?_, ?_, rfl⟩
  · show max 1 (s.currentPage - 1) = min (totalPages s) (max 1 (s.currentPage - 1))
    omega
  · show min (totalPages s) (s.currentPage + 1) =
      min (totalPages s) (max 1 (s.currentPage + 1))
    omega
  · intro n hn
    simp only [pageButtons, List.mem_map, List.mem_range] at hn
    obtain ⟨i, hi, rfl⟩ := hn
    show i + 1 = min (totalPages s) (max 1 (i + 1))
    omega
  · show (s.filteredData.length + itemsPerPage - 1) / itemsPerPage =
      (s.filteredData.length + 49) / 50
    unfold itemsPerPage
    congr 1

/-- C7 amended witness: on page 2 of 120 filtered rows, Previous lands on the
clamped target page 1. -/
theorem C7_pagination_amended_witness :
    1 ≤ state120.currentPage ∧ state120.currentPage ≤ totalPages state120 ∧
    (setPagePrev state120).currentPage =
      min (totalPages state120) (max 1 (state120.currentPage - 1)) :=
  ⟨by decide, by decide, (C7_pagination_amended state120 (by decide) (by decide)).1⟩

theorem unparse_cons (r0 : Row) (rest : List Row) :
    unparse (r0 :: rest) = specSerialize (r0.map Prod.fst) (r0 :: rest) := rfl

/-- C8: export offers the filename `filtered_<original name>` and serializes
exactly the current filteredRows — a function of `filteredData` at the moment
of invocation, not of the full dataset — and when every row carries the
header's key set in header order (which header-mode parsing guarantees), the
field ordering used is exactly the original columns ordering. -/
theorem C8_export_filtered (fileName : String) (s : ViewerState)
    (hkeys : ∀ r ∈ s.filteredData, r.map Prod.fst = s.columns)
    (hne : s.filteredData ≠ []) :
    exportData fileName s =
      ("filtered_" ++ fileName, specSerialize s.columns s.filteredData) := by
  obtain ⟨r0, rest, hfd⟩ : ∃ r0 rest, s.filteredData = r0 :: rest := by
    cases h : s.filteredData with
    | nil => exact absurd h hne
    | cons a b => exact ⟨a, b, rfl⟩
  have hr0 : r0.map Prod.fst = s.columns :=
    hkeys r0 (by rw [hfd]; exact List.mem_cons_self r0 rest)
  show ("filtered_" ++ fileName, unparse s.filteredData) = _
  rw [hfd, unparse_cons, hr0, ← hfd]

/-- C8 witness: a concrete export of the two-row dataset under the original
header ordering. -/
theorem C8_export_filtered_witness :
    (∀ r ∈ stateAB.filteredData, r.map Prod.fst = stateAB.columns) ∧
    stateAB.filteredData ≠ [] ∧
    exportData "data.csv" stateAB =
      ("filtered_" ++ "data.csv", specSerialize stateAB.columns stateAB.filteredData) :=
  ⟨by decide, by decide, C8_export_filtered "data.csv" stateAB (by decide) (by decide)⟩

/-- C9: a folder node with an empty children sequence renders, once expanded,
the distinct "Empty folder" indicator and no children block, while collapsed
it renders neither — an expanded-empty folder is distinguishable from a
collapsed one. -/
theorem C9_empty_folder_indicator (n : TreeNode)
    (hf : n.type = "folder") (hc : n.children = []) :
    (renderNode true n).emptyInd = true ∧
    (renderNode true n).childBlock = none ∧
    (renderNode false n).emptyInd = false ∧
    renderNode true n ≠ renderNode false n := by
  have hfold : (n.type == "folder") = true := by simp [hf]
  have e1 : (renderNode true n).emptyInd = true := by
    simp [renderNode, Rendered.emptyInd, hfold, hc]
  have e2 : (renderNode false n).emptyInd = false := by
    simp [renderNode, Rendered.emptyInd]
  refine ⟨e1, ?_, e2, ?_⟩
  · simp [renderNode, Rendered.childBlock, hfold, hc]
  · intro h
    rw [h, e2] at e1
    exact Bool.false_ne_true e1

/-- C9 witness: the concrete empty folder node. -/
theorem C9_empty_folder_indicator_witness :
    (renderNode true emptyFolder).emptyInd = true ∧
    renderNode true emptyFolder ≠ renderNode false emptyFolder :=
  ⟨(C9_empty_folder_indicator emptyFolder rfl rfl).1,
   (C9_empty_folder_indicator emptyFolder rfl rfl).2.2.2⟩
